import Mathlib

/-!
Verification development for the `vsc-lightning` VS Code extension.

The definitions below are a shallow embedding of the extension's core:
the typed configuration item model (`src/lightning-types.ts`), the tree
data provider with its color-inheritance logic
(`src/providers/lightning-data-provider.ts`), the sound manager
(`src/utils/sound-manager.ts`), the diff handling (`src/features/file-manager.ts`)
and the quiz engine (`src/features/quiz-manager.ts`).

External editor calls (messages, dialogs, process spawns, webview
postMessage) are modeled as an explicit `Effect` list returned by each
operation; user responses to dialogs are passed in as arguments; the
file system and workspace are passed in as small environment records.
-/

/-- JavaScript truthiness of an optional string: `undefined` and `""` are
falsy, every other string is truthy.  Used to model `a || b` chains. -/
def strTruthy : Option String → Bool
  | none => false
  | some s => s != ""

/-- JavaScript `a || b` on optional strings: returns `a` when truthy,
otherwise returns `b` unchanged (even when `b` is falsy). -/
def jsOr (a b : Option String) : Option String :=
  if strTruthy a then a else b

/-- JavaScript `a || b` where the fallback `b` is a plain string. -/
def jsOrString (a : Option String) (b : String) : String :=
  match a with
  | none => b
  | some s => if s != "" then s else b

/-- Model of node's `path.resolve(root, p)` for the cases the extension
uses: an absolute path is kept, a relative one is joined to the root. -/
def pathResolve (root p : String) : String :=
  if p.startsWith "/" then p else root ++ "/" ++ p

/-- Model of node's `path.basename`. -/
def baseName (p : String) : String :=
  (p.splitOn "/").getLastD p

/- ## Item model, from `src/lightning-types.ts` -/

inductive Severity where
  | info
  | warning
  | error
  deriving DecidableEq

inductive DisplayMode where
  | webview
  | menu
  | dialog
  deriving DecidableEq

inductive DiffAction where
  | apply
  | preview
  deriving DecidableEq

/-- `LightningTitle`: the base fields only. -/
structure LightningTitle where
  label : String
  icon : Option String
  iconColor : Option String
  labelColor : Option String
  soundPath : Option String
  deriving DecidableEq

/-- `LightningFileLink`. -/
structure LightningFileLink where
  label : String
  icon : Option String
  iconColor : Option String
  labelColor : Option String
  soundPath : Option String
  path : String
  line : Option Nat
  closeSoundPath : Option String
  deriving DecidableEq

/-- `LightningDialogMessage`. -/
structure LightningDialogMessage where
  label : String
  icon : Option String
  iconColor : Option String
  labelColor : Option String
  soundPath : Option String
  message : String
  severity : Option Severity
  deriving DecidableEq

/-- `LightningDiff`. -/
structure LightningDiff where
  label : String
  icon : Option String
  iconColor : Option String
  labelColor : Option String
  soundPath : Option String
  diffPath : String
  action : Option DiffAction
  revertSoundPath : Option String
  deriving DecidableEq

/-- `LightningQuiz`. -/
structure LightningQuiz where
  label : String
  icon : Option String
  iconColor : Option String
  labelColor : Option String
  soundPath : Option String
  question : String
  wrongAnswers : List String
  correctAnswers : List String
  displayMode : Option DisplayMode
  revealSoundPath : Option String
  deriving DecidableEq

/-- `LightningBrowser`. -/
structure LightningBrowser where
  label : String
  icon : Option String
  iconColor : Option String
  labelColor : Option String
  soundPath : Option String
  url : String
  browserType : Option String
  title : Option String
  deriving DecidableEq

/-- The `LightningItem` tagged union.  The folder variant carries its
fields inline because it is the recursive case (`items` holds child
items); it includes the folder-level override colors
`folderIconColor` / `folderLabelColor` used by the data provider. -/
inductive LightningItem where
  | title (t : LightningTitle)
  | file (f : LightningFileLink)
  | dialog (d : LightningDialogMessage)
  | folder (label : String) (icon iconColor labelColor soundPath : Option String)
      (items : List LightningItem) (folderIconColor folderLabelColor : Option String)
  | diff (d : LightningDiff)
  | quiz (q : LightningQuiz)
  | browser (b : LightningBrowser)

/-- The `type` tag of an item. -/
inductive ItemType where
  | title
  | file
  | dialog
  | folder
  | diff
  | quiz
  | browser
  deriving DecidableEq

def LightningItem.itemType : LightningItem → ItemType
  | .title _ => .title
  | .file _ => .file
  | .dialog _ => .dialog
  | .folder _ _ _ _ _ _ _ _ => .folder
  | .diff _ => .diff
  | .quiz _ => .quiz
  | .browser _ => .browser

def LightningItem.labelOf : LightningItem → String
  | .title t => t.label
  | .file f => f.label
  | .dialog d => d.label
  | .folder l _ _ _ _ _ _ _ => l
  | .diff d => d.label
  | .quiz q => q.label
  | .browser b => b.label

def LightningItem.iconOf : LightningItem → Option String
  | .title t => t.icon
  | .file f => f.icon
  | .dialog d => d.icon
  | .folder _ i _ _ _ _ _ _ => i
  | .diff d => d.icon
  | .quiz q => q.icon
  | .browser b => b.icon

def LightningItem.iconColorOf : LightningItem → Option String
  | .title t => t.iconColor
  | .file f => f.iconColor
  | .dialog d => d.iconColor
  | .folder _ _ ic _ _ _ _ _ => ic
  | .diff d => d.iconColor
  | .quiz q => q.iconColor
  | .browser b => b.iconColor

def LightningItem.labelColorOf : LightningItem → Option String
  | .title t => t.labelColor
  | .file f => f.labelColor
  | .dialog d => d.labelColor
  | .folder _ _ _ lc _ _ _ _ => lc
  | .diff d => d.labelColor
  | .quiz q => q.labelColor
  | .browser b => b.labelColor

def LightningItem.soundPathOf : LightningItem → Option String
  | .title t => t.soundPath
  | .file f => f.soundPath
  | .dialog d => d.soundPath
  | .folder _ _ _ _ sp _ _ _ => sp
  | .diff d => d.soundPath
  | .quiz q => q.soundPath
  | .browser b => b.soundPath

/-- `(item.type === "folder" ? item.folderIconColor : undefined)`. -/
def LightningItem.folderIconColorOf : LightningItem → Option String
  | .folder _ _ _ _ _ _ fic _ => fic
  | _ => none

/-- `(item.type === "folder" ? item.folderLabelColor : undefined)`. -/
def LightningItem.folderLabelColorOf : LightningItem → Option String
  | .folder _ _ _ _ _ _ _ flc => flc
  | _ => none

/-- The child items of a folder (empty for non-folders). -/
def LightningItem.itemsOf : LightningItem → List LightningItem
  | .folder _ _ _ _ _ items _ _ => items
  | _ => []

/-- Replace the `iconColor` and `labelColor` fields of an item, leaving
every other field (including a folder's override fields) unchanged.
This models the object spread `{...item, iconColor: ..., labelColor: ...}`
in `getChildItems`. -/
def LightningItem.setColors : LightningItem → Option String → Option String → LightningItem
  | .title t, ic, lc => .title ⟨t.label, t.icon, ic, lc, t.soundPath⟩
  | .file f, ic, lc =>
      .file ⟨f.label, f.icon, ic, lc, f.soundPath, f.path, f.line, f.closeSoundPath⟩
  | .dialog d, ic, lc =>
      .dialog ⟨d.label, d.icon, ic, lc, d.soundPath, d.message, d.severity⟩
  | .folder l i _ _ sp items fic flc, ic, lc => .folder l i ic lc sp items fic flc
  | .diff d, ic, lc =>
      .diff ⟨d.label, d.icon, ic, lc, d.soundPath, d.diffPath, d.action, d.revertSoundPath⟩
  | .quiz q, ic, lc =>
      .quiz ⟨q.label, q.icon, ic, lc, q.soundPath, q.question, q.wrongAnswers,
        q.correctAnswers, q.displayMode, q.revealSoundPath⟩
  | .browser b, ic, lc =>
      .browser ⟨b.label, b.icon, ic, lc, b.soundPath, b.url, b.browserType, b.title⟩

/- ## External effects

Calls the core makes into the editor host / OS, recorded as data.
`playSound` records a call into the sound manager (the managers call
`playSound(path)`); the sound manager's own internals are modeled
separately by `soundManagerPlaySound` below. -/

inductive Effect where
  | showError (msg : String)
  | showInfo (msg : String)
  | showInfoModal (msg : String) (choices : List String)
  | showWarningModal (msg : String) (choices : List String)
  | showQuickPick (labels : List String)
  | playSound (path : String)
  | execProcess (cmd : String)
  | gitApply (path : String)
  | showTextDocument (path : String)
  | postShowAnswers (answers : List (String × Bool))
  | setContext (key : String) (value : Bool)
  | refresh
  deriving DecidableEq

/- ## JSON documents and the configuration schema

`setConfigurationFile` reads a file and runs `JSON.parse` on it; both
steps are external and fallible, so the loader below takes the combined
outcome (`Except` of an error text or a parsed JSON value) as input.
`Json` is a standard JSON value tree. -/

inductive Json where
  | null
  | bool (b : Bool)
  | num (n : Int)
  | str (s : String)
  | arr (elems : List Json)
  | obj (fields : List (String × Json))

/-- Look up the first binding of a key in a JSON object's field list. -/
def jsonLookup : List (String × Json) → String → Option Json
  | [], _ => none
  | (k, v) :: rest, key => if k == key then some v else jsonLookup rest key

def isJsonStr : Option Json → Bool
  | some (.str _) => true
  | _ => false

def isJsonStrArr : Option Json → Bool
  | some (.arr xs) => xs.all (fun j => match j with | .str _ => true | _ => false)
  | _ => false

/-- Fuel-bounded check that a JSON value is a schema-conforming
`LightningItem`: an object with a string `label`, a `type` tag drawn
from the closed set of seven variants of `lightning-types.ts`, and the
required fields of that variant (`path` for file, `message` for dialog,
`items` for folder, `diffPath` for diff, `question`/`correctAnswers`/
`wrongAnswers` for quiz, `url` for browser).  The fuel only bounds the
nesting depth of folders; `itemConforms` instantiates it with a
sufficient bound. -/
def itemConformsFuel : Nat → Json → Bool
  | 0, _ => false
  | _ + 1, .null => false
  | _ + 1, .bool _ => false
  | _ + 1, .num _ => false
  | _ + 1, .str _ => false
  | _ + 1, .arr _ => false
  | fuel + 1, .obj fields =>
    match jsonLookup fields "type", jsonLookup fields "label" with
    | some (.str t), some (.str _) =>
      if t == "title" then true
      else if t == "file" then isJsonStr (jsonLookup fields "path")
      else if t == "dialog" then isJsonStr (jsonLookup fields "message")
      else if t == "folder" then
        match jsonLookup fields "items" with
        | some (.arr xs) => xs.all (itemConformsFuel fuel)
        | _ => false
      else if t == "diff" then isJsonStr (jsonLookup fields "diffPath")
      else if t == "quiz" then
        isJsonStr (jsonLookup fields "question")
          && isJsonStrArr (jsonLookup fields "correctAnswers")
          && isJsonStrArr (jsonLookup fields "wrongAnswers")
      else if t == "browser" then isJsonStr (jsonLookup fields "url")
      else false
    | _, _ => false

mutual

/-- Structural size of a JSON value, used as a fuel bound. -/
def jsonSize : Json → Nat
  | .null => 1
  | .bool _ => 1
  | .num _ => 1
  | .str _ => 1
  | .arr elems => 1 + jsonSizeList elems
  | .obj fields => 1 + jsonSizeFields fields

def jsonSizeList : List Json → Nat
  | [] => 0
  | j :: rest => jsonSize j + jsonSizeList rest

def jsonSizeFields : List (String × Json) → Nat
  | [] => 0
  | (_, v) :: rest => jsonSize v + jsonSizeFields rest

end

def itemConforms (j : Json) : Bool :=
  itemConformsFuel (jsonSize j) j

/-- A JSON document conforms to the `LightningConfiguration` schema when
it is an object with a string `title` and an `items` array of
schema-conforming items. -/
def configConforms (j : Json) : Bool :=
  match j with
  | .obj fields =>
    isJsonStr (jsonLookup fields "title")
      && (match jsonLookup fields "items" with
          | some (.arr xs) => xs.all itemConforms
          | _ => false)
  | _ => false

/- ## The data provider, from `src/providers/lightning-data-provider.ts` -/

structure CommandConfig where
  command : String
  title : String
  deriving DecidableEq

structure ItemTypeConfig where
  defaultIcon : String
  command : Option CommandConfig
  deriving DecidableEq

/-- `DEFAULT_ITEM_CONFIG`: per-type default icon and command. -/
def DEFAULT_ITEM_CONFIG : ItemType → ItemTypeConfig
  | .title => ⟨"symbol-event", none⟩
  | .file => ⟨"file", some ⟨"lightning.openFile", "Open File"⟩⟩
  | .dialog => ⟨"comment-discussion", some ⟨"lightning.showDialog", "Show Dialog"⟩⟩
  | .folder => ⟨"folder", none⟩
  | .diff => ⟨"git-pull-request", some ⟨"lightning.applyDiff", "Apply Diff"⟩⟩
  | .quiz => ⟨"question", some ⟨"lightning.showQuiz", "Show Quiz"⟩⟩
  | .browser => ⟨"globe", some ⟨"lightning.openBrowser", "Open Browser"⟩⟩

/-- The icon name chosen by the `LightningTreeItem` constructor:
`lightningItem.icon || DEFAULT_ITEM_CONFIG[lightningItem.type].defaultIcon`. -/
def effectiveIconName (item : LightningItem) : String :=
  jsOrString item.iconOf (DEFAULT_ITEM_CONFIG item.itemType).defaultIcon

/-- The command attached to a tree node in `getChildItems`: title items
get a play-sound command only when they carry a truthy `soundPath`;
other types use the centralized `DEFAULT_ITEM_CONFIG` command (none for
folders). -/
def commandForItem (item : LightningItem) : Option CommandConfig :=
  match item with
  | .title t =>
    if strTruthy t.soundPath then some ⟨"lightning.playSound", "Play Sound"⟩ else none
  | _ => (DEFAULT_ITEM_CONFIG item.itemType).command

/-- The decorated copy built in `getChildItems`:
`{...item, iconColor: item.iconColor || (folder ? folderIconColor : undefined) || parentIconColor,
           labelColor: item.labelColor || (folder ? folderLabelColor : undefined) || parentLabelColor}`. -/
def withInheritedColors (item : LightningItem)
    (parentLabelColor parentIconColor : Option String) : LightningItem :=
  item.setColors
    (jsOr item.iconColorOf (jsOr item.folderIconColorOf parentIconColor))
    (jsOr item.labelColorOf (jsOr item.folderLabelColorOf parentLabelColor))

/-- A rendered tree node: label, attached command, and the decorated
item stored on the node (`LightningTreeItem`). -/
structure TreeNode where
  label : String
  command : Option CommandConfig
  item : LightningItem

/-- `LightningDataProvider.getChildItems`. -/
def getChildItems (items : List LightningItem)
    (parentLabelColor parentIconColor : Option String) : List TreeNode :=
  items.map (fun item =>
    ⟨item.labelOf, commandForItem item, withInheritedColors item parentLabelColor parentIconColor⟩)

/-- `LightningDataProvider.getChildren` on an expanded element: for a
folder node the children are produced from the folder's child items,
passing the folder's raw `folderLabelColor` / `folderIconColor` fields
as the inherited colors; non-folders have no children. -/
def getChildrenOf (element : TreeNode) : List TreeNode :=
  match element.item with
  | .folder _ _ _ _ _ items fic flc => getChildItems items flc fic
  | _ => []

/-- `getConfigurationItems`: root items are resolved with no inherited
colors. -/
def getConfigurationItems (rootItems : List LightningItem) : List TreeNode :=
  getChildItems rootItems none none

/- ## Configuration loading, `LightningDataProvider.setConfigurationFile` -/

/-- Provider state relevant to configuration loading.  The stored
configuration is the raw parsed JSON document: the source casts the
result of `JSON.parse` to `LightningConfiguration` without any
validation. -/
structure ProviderState where
  configuration : Option Json
  configLoadedContext : Bool

/-- `setConfigurationFile`.  `readAndParse` is the combined outcome of
`fs.promises.readFile` + `JSON.parse`, both of which run before any
state is touched; a thrown error reaches the `catch` branch, which only
reports and leaves the state as it was. -/
def setConfigurationFile (readAndParse : Except String Json)
    (st : ProviderState) : ProviderState × List Effect :=
  match readAndParse with
  | .ok config =>
    (⟨some config, true⟩, [.setContext "lightning.configLoaded" true, .refresh])
  | .error e =>
    (st, [.showError ("Failed to load configuration file: " ++ e)])

/- ## Sound manager, from `src/utils/sound-manager.ts` -/

/-- The environment read by `playSound`: the module-level mute flag, the
(first) workspace folder, the file system, and `process.platform`. -/
structure SoundEnv where
  muted : Bool
  workspaceRoot : Option String
  fileExists : String → Bool
  platform : String

/-- The shell command `playSound` builds for the current platform. -/
def soundCommand (platform resolvedPath : String) : String :=
  if platform == "darwin" then
    "afplay \"" ++ resolvedPath ++ "\""
  else if platform == "win32" then
    "powershell -c (New-Object Media.SoundPlayer \"" ++ resolvedPath ++ "\").PlaySync()"
  else
    "aplay \"" ++ resolvedPath ++ "\" 2>/dev/null || paplay \"" ++ resolvedPath
      ++ "\" 2>/dev/null || ffplay -nodisp -autoexit \"" ++ resolvedPath ++ "\" 2>/dev/null"

/-- `playSound` in the sound manager: returns immediately when muted;
otherwise reports a missing workspace or missing file, or spawns the
platform-specific player process. -/
def soundManagerPlaySound (env : SoundEnv) (soundPath : String) : List Effect :=
  if env.muted then []
  else
    match env.workspaceRoot with
    | none => [.showError "No workspace folder found"]
    | some root =>
      let resolvedPath := pathResolve root soundPath
      if env.fileExists resolvedPath then
        [.execProcess (soundCommand env.platform resolvedPath)]
      else
        [.showError ("Sound file not found: " ++ soundPath)]

/-- `playSoundIfPresent`: call into `playSound` only when the item
carries a truthy `soundPath`.  The call is recorded as the atomic
`Effect.playSound`. -/
def playSoundIfPresent (soundPath : Option String) : List Effect :=
  if strTruthy soundPath then [.playSound (soundPath.getD "")] else []

/- ## Diff handling, from `src/features/file-manager.ts` -/

/-- Environment for `applyDiff`: the (first) workspace folder and the
file system seen by `fs.promises.access`. -/
structure DiffEnv where
  workspaceRoot : Option String
  fileExists : String → Bool

/-- The modal warning text shown before applying an unset-action diff. -/
def applyDiffPrompt (diffPath : String) : String :=
  "Apply diff from \"" ++ baseName diffPath ++ "\"? This will modify your working directory."

/-- The effect of a chosen diff action: `apply` shells out to
`git apply`, `preview` opens the diff file in an editor. -/
def runDiffAction : DiffAction → String → List Effect
  | .apply, resolvedPath => [.gitApply resolvedPath]
  | .preview, resolvedPath => [.showTextDocument resolvedPath]

/-- The part of `applyDiff` after the diff path has been resolved:
existence check, workspace check for git, then either the item's preset
action or the apply-vs-preview confirmation dialog, whose outcome
(`dialogResult`, `none` = dismissed) decides what runs. -/
def applyDiffResolved (env : DiffEnv) (d : LightningDiff)
    (dialogResult : Option String) (resolvedPath : String) : List Effect :=
  if env.fileExists resolvedPath then
    match env.workspaceRoot with
    | none => [.showError "No workspace folder found for git operations"]
    | some _ =>
      match d.action with
      | some a => runDiffAction a resolvedPath
      | none =>
        .showWarningModal (applyDiffPrompt d.diffPath) ["Apply Diff", "Preview Only"] ::
          (match dialogResult with
           | some s =>
             if s == "Apply Diff" then runDiffAction .apply resolvedPath
             else if s == "Preview Only" then runDiffAction .preview resolvedPath
             else []
           | none => [])
  else
    [.showError ("Diff file not found: " ++ baseName d.diffPath)]

/-- `applyDiff`: play the activation sound if present, resolve the diff
path against the workspace (erroring when a relative path has no
workspace), then continue with `applyDiffResolved`. -/
def applyDiff (env : DiffEnv) (d : LightningDiff) (dialogResult : Option String) : List Effect :=
  playSoundIfPresent d.soundPath ++
    (if d.diffPath.startsWith "/" then
      applyDiffResolved env d dialogResult d.diffPath
    else
      match env.workspaceRoot with
      | none => [.showError "No workspace folder found to resolve relative path"]
      | some root => applyDiffResolved env d dialogResult (pathResolve root d.diffPath))

/- ## Quiz engine, from `src/features/quiz-manager.ts` -/

/-- One displayed answer: its text and its correctness tag. -/
structure TaggedAnswer where
  text : String
  correct : Bool
  deriving DecidableEq

/-- `allAnswers` before shuffling: correct answers tagged `true`
followed by wrong answers tagged `false`. -/
def buildAllAnswers (correctAnswers wrongAnswers : List String) : List TaggedAnswer :=
  correctAnswers.map (fun a => ⟨a, true⟩) ++ wrongAnswers.map (fun a => ⟨a, false⟩)

/-- One step `[l[i], l[j]] = [l[j], l[i]]` of the shuffle.  The source
indices always satisfy `j ≤ i < length`; out-of-range indices (which
never occur on real inputs) leave the list unchanged so the function is
total. -/
def swapInList (l : List TaggedAnswer) (i j : Nat) : List TaggedAnswer :=
  if h : i < l.length ∧ j < l.length then
    (l.set i (l.get ⟨j, h.2⟩)).set j (l.get ⟨i, h.1⟩)
  else l

/-- The Fisher–Yates loop `for (i = n-1; i > 0; i--) swap(i, rand i)`,
counting `i` down from the first argument. -/
def fyLoop (randChoice : Nat → Nat) : Nat → List TaggedAnswer → List TaggedAnswer
  | 0, l => l
  | i + 1, l => fyLoop randChoice i (swapInList l (i + 1) (randChoice (i + 1)))

/-- The shuffle applied to `allAnswers`: `randChoice i` models
`Math.floor(Math.random() * (i + 1))`, the uniformly chosen index `≤ i`
drawn when the loop counter is `i`. -/
def shuffleAnswers (randChoice : Nat → Nat) (l : List TaggedAnswer) : List TaggedAnswer :=
  fyLoop randChoice (l.length - 1) l

/-- One numbered, untagged answer line `"<n>. <text>"` of the initial
(unrevealed) dialog. -/
def numberedAnswerLine (i : Nat) (a : TaggedAnswer) : String :=
  toString (i + 1) ++ ". " ++ a.text

/-- `questionAndAnswers` in `showQuizDialog`: the question and the
numbered answer lines, with no correctness markers. -/
def questionAndAnswers (question : String) (allAnswers : List TaggedAnswer) : String :=
  question ++ "\n\n" ++
    String.intercalate "\n" (allAnswers.enum.map (fun p => numberedAnswerLine p.1 p.2))

/-- One revealed dialog line: a check/cross marker, then the numbered
answer. -/
def revealedAnswerLine (i : Nat) (a : TaggedAnswer) : String :=
  (if a.correct then "✅" else "❌") ++ " " ++ toString (i + 1) ++ ". " ++ a.text

/-- The lines of `revealedContent` in `showQuizDialog`. -/
def revealedDialogLines (allAnswers : List TaggedAnswer) : List String :=
  allAnswers.enum.map (fun p => revealedAnswerLine p.1 p.2)

/-- `revealedContent` in `showQuizDialog`. -/
def revealedContent (question : String) (allAnswers : List TaggedAnswer) : String :=
  question ++ "\n\n" ++ String.intercalate "\n" (revealedDialogLines allAnswers)

/-- `showQuizDialog`: build and shuffle the answers, show the modal
question dialog with the single "Reveal Answers" button, and if the
user picks it (`action`), play the reveal sound when present and show
the revealed modal. -/
def showQuizDialog (q : LightningQuiz) (randChoice : Nat → Nat)
    (action : Option String) : List Effect :=
  let allAnswers := shuffleAnswers randChoice (buildAllAnswers q.correctAnswers q.wrongAnswers)
  [.showInfoModal (questionAndAnswers q.question allAnswers) ["Reveal Answers"]] ++
    if action == some "Reveal Answers" then
      (if strTruthy q.revealSoundPath then [.playSound (q.revealSoundPath.getD "")] else []) ++
        [.showInfoModal (revealedContent q.question allAnswers) []]
    else []

/-- The QuickPick labels of the unrevealed menu display: numbered,
untagged answer lines plus the reveal entry. -/
def menuUnrevealedLabels (allAnswers : List TaggedAnswer) : List String :=
  allAnswers.enum.map (fun p => numberedAnswerLine p.1 p.2) ++ ["$(eye) Reveal Answers"]

/-- The QuickPick labels of `showRevealedAnswers`: each answer prefixed
with a `$(check)` / `$(x)` marker. -/
def menuRevealedLabels (allAnswers : List TaggedAnswer) : List String :=
  allAnswers.enum.map (fun p =>
    (if p.2.correct then "$(check)" else "$(x)") ++ " " ++ toString (p.1 + 1) ++ ". " ++ p.2.text)

/-- `showRevealedAnswers` (menu display): play the reveal sound when
present, then show the marked QuickPick. -/
def showRevealedAnswers (q : LightningQuiz) (allAnswers : List TaggedAnswer) : List Effect :=
  (if strTruthy q.revealSoundPath then [.playSound (q.revealSoundPath.getD "")] else []) ++
    [.showQuickPick (menuRevealedLabels allAnswers)]

/-- One answer entry as rendered by the quiz webview page: the icon
span's text, whether the icon span has the `hidden` class, and the
answer text. -/
structure WebviewAnswerView where
  iconText : String
  iconHidden : Bool
  text : String
  deriving DecidableEq

/-- The webview's initial answer list (`getQuizWebviewContent`): every
icon span is empty and hidden, only the answer text is shown. -/
def webviewInitialAnswers (allAnswers : List TaggedAnswer) : List WebviewAnswerView :=
  allAnswers.map (fun a => ⟨"", true, a.text⟩)

/-- The webview page after receiving `showAnswers` (the page script):
each answer's icon becomes `✓` or `✗` per its tag and is unhidden. -/
def webviewShowAnswers (allAnswers : List TaggedAnswer) : List WebviewAnswerView :=
  allAnswers.map (fun a => ⟨if a.correct then "✓" else "✗", false, a.text⟩)

/-- The extension-side message handler of `showQuizWebview`: on the
`"reveal"` message, post the tagged answers back to the page and play
the reveal sound when present; any other message does nothing. -/
def quizWebviewOnMessage (q : LightningQuiz) (allAnswers : List TaggedAnswer)
    (cmd : String) : List Effect :=
  if cmd == "reveal" then
    .postShowAnswers (allAnswers.map (fun a => (a.text, a.correct))) ::
      (if strTruthy q.revealSoundPath then [.playSound (q.revealSoundPath.getD "")] else [])
  else []

/- ## Helper lemmas on resolution -/

lemma LightningItem.iconColorOf_setColors (x : LightningItem) (ic lc : Option String) :
    (x.setColors ic lc).iconColorOf = ic := by
  cases x <;> rfl

lemma LightningItem.labelColorOf_setColors (x : LightningItem) (ic lc : Option String) :
    (x.setColors ic lc).labelColorOf = lc := by
  cases x <;> rfl

lemma LightningItem.folderIconColorOf_setColors (x : LightningItem) (ic lc : Option String) :
    (x.setColors ic lc).folderIconColorOf = x.folderIconColorOf := by
  cases x <;> rfl

lemma LightningItem.folderLabelColorOf_setColors (x : LightningItem) (ic lc : Option String) :
    (x.setColors ic lc).folderLabelColorOf = x.folderLabelColorOf := by
  cases x <;> rfl

lemma jsOr_truthy {a : Option String} (h : strTruthy a = true) (b : Option String) :
    jsOr a b = a := by
  simp [jsOr, h]

lemma jsOr_not_truthy {a : Option String} (h : strTruthy a = false) (b : Option String) :
    jsOr a b = b := by
  simp [jsOr, h]

lemma iconColorOf_withInheritedColors (item : LightningItem) (pL pI : Option String) :
    (withInheritedColors item pL pI).iconColorOf =
      jsOr item.iconColorOf (jsOr item.folderIconColorOf pI) := by
  simp [withInheritedColors, LightningItem.iconColorOf_setColors]

lemma labelColorOf_withInheritedColors (item : LightningItem) (pL pI : Option String) :
    (withInheritedColors item pL pI).labelColorOf =
      jsOr item.labelColorOf (jsOr item.folderLabelColorOf pL) := by
  simp [withInheritedColors, LightningItem.labelColorOf_setColors]

/- ## Claim C9: mute short-circuits playSound -/

/-- Claim C9: when the process-wide mute flag is set, `playSound`
returns immediately with no external effect — no workspace lookup, no
file-existence check, no process spawn, no error message — for every
sound path, including paths that do not exist. -/
theorem c9_mute_no_effects (ws : Option String) (fe : String → Bool) (platform soundPath : String) :
    soundManagerPlaySound ⟨true, ws, fe, platform⟩ soundPath = [] := rfl

/- ## Claim C7: failed loads leave the configuration unchanged -/

/-- Claim C7: a configuration load that fails (unreadable file or
malformed document, i.e. the read/parse step yields an error) leaves
the provider state — in particular the stored configuration, loaded or
not — exactly as it was, while a successful load replaces the stored
configuration with the newly parsed document. -/
theorem c7_load_atomicity (st : ProviderState) (e : String) (j : Json) :
    (setConfigurationFile (.error e) st).1 = st
      ∧ (setConfigurationFile (.ok j) st).1.configuration = some j :=
  ⟨rfl, rfl⟩

/- ## Claim C2: schema-non-conforming documents -/

/-- A structurally valid JSON document whose single item carries the
unknown type tag `"bogus"`: well-formed JSON, but outside the closed
set of seven item variants. -/
def bogusDoc : Json :=
  .obj [("title", .str "T"),
        ("items", .arr [.obj [("type", .str "bogus"), ("label", .str "x")]])]

/-- Claim C2 counterexample: `bogusDoc` does not conform to the schema
(its item's tag is outside the closed set), yet loading it succeeds and
stores it as the configuration — the claim that loading such a document
fails and produces no configuration is false on the code, which never
validates the parsed value. -/
theorem c2_counterexample :
    configConforms bogusDoc = false
      ∧ (setConfigurationFile (.ok bogusDoc) ⟨none, false⟩).1.configuration = some bogusDoc :=
  ⟨by decide, rfl⟩

/-- Claim C2 (amended): loading rejects only documents whose read or
JSON parse fails; no schema validation is performed, so a structurally
valid document that violates the schema (unknown tag, missing required
field) is still accepted and stored unchanged as the configuration. -/
theorem c2_no_schema_validation (j : Json) (st st2 : ProviderState) (e : String)
    (_hbad : configConforms j = false) :
    (setConfigurationFile (.ok j) st).1.configuration = some j
      ∧ (setConfigurationFile (.error e) st2).1.configuration = st2.configuration :=
  ⟨rfl, rfl⟩

/-- Witness for `c2_no_schema_validation` at the concrete
non-conforming `bogusDoc`. -/
theorem c2_no_schema_validation_witness :
    (setConfigurationFile (.ok bogusDoc) ⟨none, false⟩).1.configuration = some bogusDoc
      ∧ (setConfigurationFile (.error "ENOENT") ⟨none, false⟩).1.configuration = none :=
  c2_no_schema_validation bogusDoc ⟨none, false⟩ ⟨none, false⟩ "ENOENT" (by decide)

/- ## Claim C4: default icons per item type -/

/-- A title item with no explicit icon. -/
def exTitleNoIcon : LightningItem := .title ⟨"T", none, none, none, none⟩

/-- A dialog item with the explicit icon `"zap"`. -/
def exDialogZapIcon : LightningItem :=
  .dialog ⟨"D", some "zap", none, none, none, "hello", none⟩

/-- A browser item whose icon field is present but empty. -/
def exBrowserEmptyIcon : LightningItem :=
  .browser ⟨"B", some "", none, none, none, "https://example.com", none, none⟩

/-- Claim C4 counterexample: a title item with no explicit icon gets
the default icon `"symbol-event"`, not the `"event-marker"` stated by
the claim (likewise the code's dialog default is
`"comment-discussion"`, not `"message"`, and its diff default is
`"git-pull-request"`, not `"change-set"`). -/
theorem c4_counterexample :
    effectiveIconName exTitleNoIcon = "symbol-event"
      ∧ effectiveIconName exTitleNoIcon ≠ "event-marker" := by
  refine ⟨rfl, by decide⟩

/-- Claim C4 (amended): for every item with no explicit icon the
effective icon is the type-specific default of the code's table —
title→"symbol-event", file→"file", dialog→"comment-discussion",
folder→"folder", diff→"git-pull-request", quiz→"question",
browser→"globe" — and for every item whose explicit icon is a
non-empty string the effective icon is that value (an empty-string
icon falls back to the default, because the code tests truthiness). -/
theorem c4_default_icons (item : LightningItem) :
    (item.iconOf = none →
      effectiveIconName item = (DEFAULT_ITEM_CONFIG item.itemType).defaultIcon)
      ∧ (item.iconOf = some "" →
        effectiveIconName item = (DEFAULT_ITEM_CONFIG item.itemType).defaultIcon)
      ∧ (∀ s : String, item.iconOf = some s → s ≠ "" → effectiveIconName item = s)
      ∧ (DEFAULT_ITEM_CONFIG .title).defaultIcon = "symbol-event"
      ∧ (DEFAULT_ITEM_CONFIG .file).defaultIcon = "file"
      ∧ (DEFAULT_ITEM_CONFIG .dialog).defaultIcon = "comment-discussion"
      ∧ (DEFAULT_ITEM_CONFIG .folder).defaultIcon = "folder"
      ∧ (DEFAULT_ITEM_CONFIG .diff).defaultIcon = "git-pull-request"
      ∧ (DEFAULT_ITEM_CONFIG .quiz).defaultIcon = "question"
      ∧ (DEFAULT_ITEM_CONFIG .browser).defaultIcon = "globe" := by
  refine ⟨?_, ?_, ?_, rfl, rfl, rfl, rfl, rfl, rfl, rfl⟩
  · intro h
    simp [effectiveIconName, jsOrString, h]
  · intro h
    simp [effectiveIconName, jsOrString, h]
  · intro s h hs
    simp [effectiveIconName, jsOrString, h, hs]

/-- Witness for `c4_default_icons`: the icon-less title item resolves
to the default `"symbol-event"`, the empty-string-icon browser item
falls back to the default `"globe"`, and the dialog item with explicit
icon `"zap"` keeps it. -/
theorem c4_default_icons_witness :
    effectiveIconName exTitleNoIcon = (DEFAULT_ITEM_CONFIG ItemType.title).defaultIcon
      ∧ effectiveIconName exBrowserEmptyIcon = (DEFAULT_ITEM_CONFIG ItemType.browser).defaultIcon
      ∧ effectiveIconName exDialogZapIcon = "zap" :=
  ⟨(c4_default_icons exTitleNoIcon).1 rfl,
   (c4_default_icons exBrowserEmptyIcon).2.1 rfl,
   (c4_default_icons exDialogZapIcon).2.2.1 "zap" rfl (by decide)⟩

/- ## Claims C8 and C10: explicit colors vs. the empty string -/

/-- A file item whose `iconColor` field is present but empty. -/
def exEmptyIconColorFile : LightningItem :=
  .file ⟨"Y", none, some "", none, none, "b.txt", none, none⟩

/-- A folder item whose `iconColor` and `labelColor` are both the empty
string, with a folder-level `folderIconColor` override and no
`folderLabelColor`. -/
def exEmptyColorsFolder : LightningItem :=
  .folder "E" none (some "") (some "") none [] (some "terminal.ansiCyan") none

/-- A file item with an explicit non-empty `iconColor` and no
`labelColor` of its own. -/
def exIconOnlyFile : LightningItem :=
  .file ⟨"Z", none, some "charts.red", none, none, "c.txt", none, none⟩

/-- A file item with an explicit non-empty `labelColor` and no
`iconColor` of its own. -/
def exLabelOnlyFile : LightningItem :=
  .file ⟨"L", none, none, some "charts.green", none, "d.txt", none, none⟩

/-- Claim C8 counterexample: this item *does* specify its own
`iconColor` (the field is present, holding `""`), yet its resolved
iconColor is not independent of the inherited argument: with inherited
`"red"` it resolves to `"red"`, with no inherited color it resolves to
`none` — the resolution chain tests truthiness, so the empty string
falls through. -/
theorem c8_counterexample :
    exEmptyIconColorFile.iconColorOf = some ""
      ∧ (withInheritedColors exEmptyIconColorFile none (some "red")).iconColorOf = some "red"
      ∧ (withInheritedColors exEmptyIconColorFile none none).iconColorOf = none :=
  ⟨rfl, rfl, rfl⟩

/-- Claim C8 (amended): for every item whose own `iconColor` is a
non-empty string, the resolved effective iconColor equals that value
for all inherited ancestor colors and folder override values, and
likewise for a non-empty own `labelColor` — resolution output on such
fields is independent of the inherited arguments. -/
theorem c8_explicit_color_wins (item : LightningItem) (pL pI : Option String) :
    (strTruthy item.iconColorOf = true →
      (withInheritedColors item pL pI).iconColorOf = item.iconColorOf)
      ∧ (strTruthy item.labelColorOf = true →
        (withInheritedColors item pL pI).labelColorOf = item.labelColorOf) := by
  constructor
  · intro hic
    rw [iconColorOf_withInheritedColors, jsOr_truthy hic]
  · intro hlc
    rw [labelColorOf_withInheritedColors, jsOr_truthy hlc]

/-- Witness for `c8_explicit_color_wins`: the file with only a
non-empty `iconColor` keeps `"charts.red"` under inherited colors, and
(independently) the file with only a non-empty `labelColor` keeps
`"charts.green"` — each implication is exercised on an item to which
the other does not apply. -/
theorem c8_explicit_color_wins_witness :
    (withInheritedColors exIconOnlyFile (some "other") (some "other2")).iconColorOf
        = exIconOnlyFile.iconColorOf
      ∧ (withInheritedColors exLabelOnlyFile (some "other") (some "other2")).labelColorOf
        = exLabelOnlyFile.labelColorOf :=
  ⟨(c8_explicit_color_wins exIconOnlyFile (some "other") (some "other2")).1 rfl,
   (c8_explicit_color_wins exLabelOnlyFile (some "other") (some "other2")).2 rfl⟩

/-- Claim C10: a color field that is present but equal to the empty
string is treated as absent by attribute resolution — the resolved
color falls back to the folder-level override field if any, else to the
inherited parent color (which may itself be `undefined`), exactly the
`||` truthiness chain of `getChildItems`. -/
theorem c10_empty_string_color_is_absent (item : LightningItem) (pL pI : Option String) :
    (item.iconColorOf = some "" →
      (withInheritedColors item pL pI).iconColorOf = jsOr item.folderIconColorOf pI)
      ∧ (item.labelColorOf = some "" →
        (withInheritedColors item pL pI).labelColorOf = jsOr item.folderLabelColorOf pL) := by
  constructor
  · intro h
    rw [iconColorOf_withInheritedColors, h, jsOr_not_truthy (by rfl)]
  · intro h
    rw [labelColorOf_withInheritedColors, h, jsOr_not_truthy (by rfl)]

/-- Witness for `c10_empty_string_color_is_absent` at the folder with
empty-string colors: the empty iconColor falls back to the folder-level
override, the empty labelColor (no override present) falls back to the
inherited parent color. -/
theorem c10_empty_string_color_is_absent_witness :
    (withInheritedColors exEmptyColorsFolder (some "parentL") (some "parentI")).iconColorOf
        = jsOr exEmptyColorsFolder.folderIconColorOf (some "parentI")
      ∧ (withInheritedColors exEmptyColorsFolder (some "parentL") (some "parentI")).labelColorOf
        = jsOr exEmptyColorsFolder.folderLabelColorOf (some "parentL") :=
  ⟨(c10_empty_string_color_is_absent exEmptyColorsFolder (some "parentL") (some "parentI")).1 rfl,
   (c10_empty_string_color_is_absent exEmptyColorsFolder (some "parentL") (some "parentI")).2 rfl⟩

/- ## Claim C1: transitivity of folder override inheritance -/

/-- File `X` with no colors of its own. -/
def exFileX : LightningItem := .file ⟨"X", none, none, none, none, "a.txt", none, none⟩

/-- Folder `G` with no colors and no overrides, containing `X`. -/
def exFolderG : LightningItem := .folder "G" none none none none [exFileX] none none

/-- Folder `F` with `folderLabelColor = "blue"`, containing `G`. -/
def exFolderF : LightningItem := .folder "F" none none none none [exFolderG] none (some "blue")

/-- Placeholder node used with `headD` when walking concrete trees. -/
def dummyNode : TreeNode := ⟨"", none, .title ⟨"", none, none, none, none⟩⟩

/-- The rendered node of `F` at the configuration root. -/
def exNodeF : TreeNode := (getConfigurationItems [exFolderF]).headD dummyNode

/-- The rendered node of `G` obtained by expanding `F`. -/
def exNodeG : TreeNode := (getChildrenOf exNodeF).headD dummyNode

/-- The rendered node of `X` obtained by expanding `G`. -/
def exNodeX : TreeNode := (getChildrenOf exNodeG).headD dummyNode

/-- Claim C1 counterexample: in the claim's own example — folder `F`
with `folderLabelColor="blue"` containing override-less folder `G`
containing color-less file `X` — the code resolves `G`'s labelColor to
`"blue"` but `X`'s labelColor to `none`, not `"blue"`: expansion passes
each folder's raw `folderLabelColor` field (which on `G` is absent),
not the folder's effective color, so the override does not reach the
grandchild. -/
theorem c1_counterexample :
    exNodeG.item.labelColorOf = some "blue"
      ∧ exNodeX.item.labelColorOf = none
      ∧ exNodeX.item.labelColorOf ≠ some "blue" :=
  ⟨rfl, rfl, by decide⟩

/-- Claim C1 (amended): a folder's override colors reach exactly its
immediate children.  Expanding a resolved folder node hands its
children the folder's raw `folderLabelColor`/`folderIconColor` fields —
not its effective colors — as the inherited values, so an immediate
child with no truthy color of its own (and no truthy override of its
own) resolves to the parent folder's override, while descendants below
an intermediate folder that carries no override of its own receive
nothing from the outer folder. -/
theorem c1_override_inherits_one_level
    (l : String) (i ic lc sp : Option String) (items : List LightningItem)
    (fic flc pL pI : Option String) (lbl : String) (cmd : Option CommandConfig)
    (x : LightningItem)
    (hxl : strTruthy x.labelColorOf = false)
    (hxfl : strTruthy x.folderLabelColorOf = false)
    (hxi : strTruthy x.iconColorOf = false)
    (hxfi : strTruthy x.folderIconColorOf = false) :
    getChildrenOf ⟨lbl, cmd, withInheritedColors (.folder l i ic lc sp items fic flc) pL pI⟩
        = getChildItems items flc fic
      ∧ (withInheritedColors x flc fic).labelColorOf = flc
      ∧ (withInheritedColors x flc fic).iconColorOf = fic := by
  refine ⟨rfl, ?_, ?_⟩
  · rw [labelColorOf_withInheritedColors, jsOr_not_truthy hxl, jsOr_not_truthy hxfl]
  · rw [iconColorOf_withInheritedColors, jsOr_not_truthy hxi, jsOr_not_truthy hxfi]

/-- Witness for `c1_override_inherits_one_level`: expanding the
resolved node of `F` resolves against `F`'s raw override fields, and
the color-less folder `G` as an immediate child picks up
`folderLabelColor = "blue"`. -/
theorem c1_override_inherits_one_level_witness :
    getChildrenOf ⟨"F", none,
        withInheritedColors (.folder "F" none none none none [exFolderG] none (some "blue")) none none⟩
        = getChildItems [exFolderG] (some "blue") none
      ∧ (withInheritedColors exFolderG (some "blue") none).labelColorOf = some "blue"
      ∧ (withInheritedColors exFolderG (some "blue") none).iconColorOf = none :=
  c1_override_inherits_one_level "F" none none none none [exFolderG] none (some "blue")
    none none "F" none exFolderG rfl rfl rfl rfl

/- ## Claim C6: diff items with no preset action -/

/-- Claim C6: activating a diff item whose `action` field is unset does
not immediately apply or preview the diff: after the optional
activation sound it shows exactly one decision prompt with exactly the
two choices "Apply Diff" and "Preview Only"; dismissing the prompt
produces no further effect at all (no `git apply`, no preview, no error
message), while choosing a button executes exactly that one effect. -/
theorem c6_unset_action_prompts (root : String) (fe : String → Bool) (d : LightningDiff)
    (hact : d.action = none)
    (hex : fe (if d.diffPath.startsWith "/" then d.diffPath else pathResolve root d.diffPath)
      = true) :
    applyDiff ⟨some root, fe⟩ d none
        = playSoundIfPresent d.soundPath
          ++ [.showWarningModal (applyDiffPrompt d.diffPath) ["Apply Diff", "Preview Only"]]
      ∧ applyDiff ⟨some root, fe⟩ d (some "Apply Diff")
        = playSoundIfPresent d.soundPath
          ++ [.showWarningModal (applyDiffPrompt d.diffPath) ["Apply Diff", "Preview Only"],
              .gitApply (if d.diffPath.startsWith "/" then d.diffPath
                else pathResolve root d.diffPath)]
      ∧ applyDiff ⟨some root, fe⟩ d (some "Preview Only")
        = playSoundIfPresent d.soundPath
          ++ [.showWarningModal (applyDiffPrompt d.diffPath) ["Apply Diff", "Preview Only"],
              .showTextDocument (if d.diffPath.startsWith "/" then d.diffPath
                else pathResolve root d.diffPath)] := by
  by_cases habs : d.diffPath.startsWith "/" <;>
    simp only [habs, if_true, if_false, Bool.false_eq_true, ite_true, ite_false] at hex ⊢ <;>
    refine ⟨?_, ?_, ?_⟩ <;>
    simp [applyDiff, applyDiffResolved, runDiffAction, habs, hex, hact]

/-- A diff item with no preset action and no activation sound. -/
def exDiffNoAction : LightningDiff :=
  ⟨"patch step", none, none, none, none, "changes/step1.patch", none, none⟩

/-- Witness for `c6_unset_action_prompts` at a concrete relative diff
path in workspace `/w` whose file exists. -/
theorem c6_unset_action_prompts_witness :
    applyDiff ⟨some "/w", fun _ => true⟩ exDiffNoAction none
        = playSoundIfPresent exDiffNoAction.soundPath
          ++ [.showWarningModal (applyDiffPrompt exDiffNoAction.diffPath)
                ["Apply Diff", "Preview Only"]]
      ∧ applyDiff ⟨some "/w", fun _ => true⟩ exDiffNoAction (some "Apply Diff")
        = playSoundIfPresent exDiffNoAction.soundPath
          ++ [.showWarningModal (applyDiffPrompt exDiffNoAction.diffPath)
                ["Apply Diff", "Preview Only"],
              .gitApply (if exDiffNoAction.diffPath.startsWith "/" then exDiffNoAction.diffPath
                else pathResolve "/w" exDiffNoAction.diffPath)]
      ∧ applyDiff ⟨some "/w", fun _ => true⟩ exDiffNoAction (some "Preview Only")
        = playSoundIfPresent exDiffNoAction.soundPath
          ++ [.showWarningModal (applyDiffPrompt exDiffNoAction.diffPath)
                ["Apply Diff", "Preview Only"],
              .showTextDocument (if exDiffNoAction.diffPath.startsWith "/" then
                exDiffNoAction.diffPath else pathResolve "/w" exDiffNoAction.diffPath)] :=
  c6_unset_action_prompts "/w" (fun _ => true) exDiffNoAction rfl rfl

/- ## Claim C3: the quiz shuffle is a permutation -/

lemma perm_head_set {α : Type} (xs : List α) (k : Nat) (hk : k < xs.length) (x : α) :
    List.Perm (xs.get ⟨k, hk⟩ :: xs.set k x) (x :: xs) := by
  induction xs generalizing k with
  | nil => simp at hk
  | cons y ys ih =>
    cases k with
    | zero =>
      simpa using List.Perm.swap x y ys
    | succ k =>
      have hk2 : k < ys.length := by simpa using hk
      have h1 : List.Perm ((y :: ys).get ⟨k + 1, hk⟩ :: (y :: ys).set (k + 1) x)
          (y :: ys.get ⟨k, hk2⟩ :: ys.set k x) := by
        simpa using List.Perm.swap y (ys.get ⟨k, hk2⟩) (ys.set k x)
      exact (h1.trans (List.Perm.cons y (ih k hk2))).trans (List.Perm.swap x y ys)

lemma set_set_perm {α : Type} (l : List α) (i j : Nat) (hi : i < l.length) (hj : j < l.length) :
    List.Perm ((l.set i (l.get ⟨j, hj⟩)).set j (l.get ⟨i, hi⟩)) l := by
  induction l generalizing i j with
  | nil => simp at hi
  | cons x xs ih =>
    cases i with
    | zero =>
      cases j with
      | zero => simp
      | succ j =>
        have hj2 : j < xs.length := by simpa using hj
        simpa using perm_head_set xs j hj2 x
    | succ i =>
      have hi2 : i < xs.length := by simpa using hi
      cases j with
      | zero =>
        simpa using perm_head_set xs i hi2 x
      | succ j =>
        have hj2 : j < xs.length := by simpa using hj
        simpa using List.Perm.cons x (ih i j hi2 hj2)

lemma swapInList_perm (l : List TaggedAnswer) (i j : Nat) :
    List.Perm (swapInList l i j) l := by
  unfold swapInList
  by_cases h : i < l.length ∧ j < l.length
  · simpa [h] using set_set_perm l i j h.1 h.2
  · simp [h]

lemma fyLoop_perm (randChoice : Nat → Nat) (n : Nat) (l : List TaggedAnswer) :
    List.Perm (fyLoop randChoice n l) l := by
  induction n generalizing l with
  | zero => exact List.Perm.refl l
  | succ n ih =>
    exact (ih (swapInList l (n + 1) (randChoice (n + 1)))).trans
      (swapInList_perm l (n + 1) (randChoice (n + 1)))

lemma shuffleAnswers_perm (randChoice : Nat → Nat) (l : List TaggedAnswer) :
    List.Perm (shuffleAnswers randChoice l) l :=
  fyLoop_perm randChoice (l.length - 1) l

/-- Claim C3: for every quiz item and every sequence of random draws,
the displayed answer sequence is a permutation of the tagged union of
`correctAnswers` and `wrongAnswers`: its length is
`|correctAnswers| + |wrongAnswers|`, each answer text occurs tagged
`correct = true` exactly as often as in `correctAnswers` and tagged
`correct = false` exactly as often as in `wrongAnswers` — the
Fisher–Yates loop (swap element `i` with a chosen element at index
`≤ i`, for `i` from the last index down to `1`) adds, drops and retags
nothing. -/
theorem c3_shuffle_is_permutation (c w : List String) (randChoice : Nat → Nat) :
    List.Perm (shuffleAnswers randChoice (buildAllAnswers c w)) (buildAllAnswers c w)
      ∧ (shuffleAnswers randChoice (buildAllAnswers c w)).length = c.length + w.length
      ∧ (∀ a : String,
        (shuffleAnswers randChoice (buildAllAnswers c w)).count ⟨a, true⟩ = c.count a)
      ∧ (∀ a : String,
        (shuffleAnswers randChoice (buildAllAnswers c w)).count ⟨a, false⟩ = w.count a) := by
  have hp := shuffleAnswers_perm randChoice (buildAllAnswers c w)
  refine ⟨hp, ?_, ?_, ?_⟩
  · rw [hp.length_eq]
    simp [buildAllAnswers]
  · intro a
    rw [hp.count_eq]
    have h1 : (c.map (fun s => TaggedAnswer.mk s true)).count ⟨a, true⟩ = c.count a :=
      List.count_map_of_injective (β := TaggedAnswer) c (fun s => TaggedAnswer.mk s true)
        (fun x y h => congrArg TaggedAnswer.text h) a
    have h2 : (w.map (fun s => TaggedAnswer.mk s false)).count ⟨a, true⟩ = 0 := by
      simp [List.count_eq_zero, List.mem_map]
    simp [buildAllAnswers, List.count_append, h1, h2]
  · intro a
    rw [hp.count_eq]
    have h1 : (w.map (fun s => TaggedAnswer.mk s false)).count ⟨a, false⟩ = w.count a :=
      List.count_map_of_injective (β := TaggedAnswer) w (fun s => TaggedAnswer.mk s false)
        (fun x y h => congrArg TaggedAnswer.text h) a
    have h2 : (c.map (fun s => TaggedAnswer.mk s true)).count ⟨a, false⟩ = 0 := by
      simp [List.count_eq_zero, List.mem_map]
    simp [buildAllAnswers, List.count_append, h1, h2]

/- ## Claim C5: the quiz reveal state machine -/

lemma enum_map_on_text (a : List TaggedAnswer) (f : Nat → String → String) :
    a.enum.map (fun p => f p.1 p.2.text) = (a.map TaggedAnswer.text).enum.map (fun p => f p.1 p.2) := by
  rw [List.enum_map, List.map_map]
  rfl

lemma map_on_text {β : Type} (a : List TaggedAnswer) (g : String → β) :
    a.map (fun x => g x.text) = (a.map TaggedAnswer.text).map g := by
  rw [List.map_map]
  rfl

/-- Claim C5: in each of the three display modes, the unrevealed
rendering is a function of the answer texts alone (two answer lists
with the same texts but different correctness tags render identically,
so no tag is exposed before the reveal signal); the revealed rendering
attaches to every answer a marker matching its tag (✅/❌ in the modal
dialog, `$(check)`/`$(x)` in the menu, ✓/✗ unhidden in the webview
page); the reveal transition emits `playSound` on the quiz's
`revealSoundPath` when one is present; and without the reveal signal
the dialog run shows only the single untagged modal. -/
theorem c5_quiz_reveal_state_machine
    (q : LightningQuiz) (randChoice : Nat → Nat) (p : String)
    (hsound : q.revealSoundPath = some p) (hp : p ≠ "")
    (answers answersB : List TaggedAnswer)
    (htext : answers.map TaggedAnswer.text = answersB.map TaggedAnswer.text)
    (i : Nat) (hi : i < answers.length) :
    questionAndAnswers q.question answers = questionAndAnswers q.question answersB
      ∧ menuUnrevealedLabels answers = menuUnrevealedLabels answersB
      ∧ webviewInitialAnswers answers = webviewInitialAnswers answersB
      ∧ (∃ rest, (revealedDialogLines answers)[i]?
          = some ((if (answers.get ⟨i, hi⟩).correct then "✅" else "❌") ++ rest))
      ∧ (∃ rest, (menuRevealedLabels answers)[i]?
          = some ((if (answers.get ⟨i, hi⟩).correct then "$(check)" else "$(x)") ++ rest))
      ∧ (webviewShowAnswers answers).map WebviewAnswerView.iconText
          = answers.map (fun a => if a.correct then "✓" else "✗")
      ∧ (∀ v ∈ webviewShowAnswers answers, v.iconHidden = false)
      ∧ Effect.playSound p ∈ showQuizDialog q randChoice (some "Reveal Answers")
      ∧ Effect.playSound p ∈ showRevealedAnswers q answers
      ∧ Effect.playSound p ∈ quizWebviewOnMessage q answers "reveal"
      ∧ showQuizDialog q randChoice none
          = [.showInfoModal (questionAndAnswers q.question
              (shuffleAnswers randChoice (buildAllAnswers q.correctAnswers q.wrongAnswers)))
              ["Reveal Answers"]] := by
  have hps : strTruthy (some p) = true := by
    simp [strTruthy, hp]
  refine ⟨?_, ?_, ?_, ?_, ?_, ?_, ?_, ?_, ?_, ?_, ?_⟩
  · unfold questionAndAnswers numberedAnswerLine
    rw [enum_map_on_text answers (fun n t => toString (n + 1) ++ ". " ++ t),
      enum_map_on_text answersB (fun n t => toString (n + 1) ++ ". " ++ t), htext]
  · unfold menuUnrevealedLabels numberedAnswerLine
    rw [enum_map_on_text answers (fun n t => toString (n + 1) ++ ". " ++ t),
      enum_map_on_text answersB (fun n t => toString (n + 1) ++ ". " ++ t), htext]
  · unfold webviewInitialAnswers
    show List.map ((fun t => (⟨"", true, t⟩ : WebviewAnswerView)) ∘ TaggedAnswer.text) answers
      = List.map ((fun t => (⟨"", true, t⟩ : WebviewAnswerView)) ∘ TaggedAnswer.text) answersB
    rw [← List.map_map, ← List.map_map, htext]
  · refine ⟨" " ++ toString (i + 1) ++ ". " ++ (answers.get ⟨i, hi⟩).text, ?_⟩
    unfold revealedDialogLines
    rw [List.getElem?_map, List.getElem?_enum, List.getElem?_eq_getElem hi]
    simp only [List.get_eq_getElem]
    cases h : answers[i].correct <;>
      simp [revealedAnswerLine, h, String.append_assoc]
  · refine ⟨" " ++ toString (i + 1) ++ ". " ++ (answers.get ⟨i, hi⟩).text, ?_⟩
    unfold menuRevealedLabels
    rw [List.getElem?_map, List.getElem?_enum, List.getElem?_eq_getElem hi]
    simp only [List.get_eq_getElem]
    cases h : answers[i].correct <;>
      simp [h, String.append_assoc]
  · unfold webviewShowAnswers
    rw [List.map_map]
    rfl
  · intro v hv
    unfold webviewShowAnswers at hv
    rcases List.mem_map.1 hv with ⟨a, _, rfl⟩
    rfl
  · simp [showQuizDialog, hsound, hps]
  · simp [showRevealedAnswers, hsound, hps]
  · simp [quizWebviewOnMessage, hsound, hps]
  · simp [showQuizDialog]

/-- The quiz item used to witness the reveal state machine. -/
def exQuiz : LightningQuiz :=
  ⟨"Arithmetic", none, none, none, none, "What is 2 + 2?", ["3", "5"], ["4"], none,
    some "media/ding.wav"⟩

/-- A displayed answer list for `exQuiz`. -/
def exAnswersA : List TaggedAnswer := [⟨"4", true⟩, ⟨"3", false⟩]

/-- The same texts with different correctness tags. -/
def exAnswersB : List TaggedAnswer := [⟨"4", false⟩, ⟨"3", true⟩]

/-- Witness for `c5_quiz_reveal_state_machine` at the concrete quiz:
the unrevealed dialog content cannot distinguish the two tag
assignments, and each display mode emits the reveal sound. -/
theorem c5_quiz_reveal_state_machine_witness :
    questionAndAnswers exQuiz.question exAnswersA = questionAndAnswers exQuiz.question exAnswersB
      ∧ Effect.playSound "media/ding.wav" ∈ showRevealedAnswers exQuiz exAnswersA
      ∧ Effect.playSound "media/ding.wav" ∈ quizWebviewOnMessage exQuiz exAnswersA "reveal" := by
  have h := c5_quiz_reveal_state_machine exQuiz (fun _ => 0) "media/ding.wav" rfl (by decide)
    exAnswersA exAnswersB rfl 0 (by decide)
  exact ⟨h.1, h.2.2.2.2.2.2.2.2.1, h.2.2.2.2.2.2.2.2.2.1⟩
